import Mathlib

/-!
Shallow embedding of the marketplace backend (`src/index.js`).

The source file contains two full revisions of the server:
* rev 1 (lines 1-370): products store `sellerId := user._id`; the
  ownership check in update/delete compares against `user._id`.
* rev 2 (lines 371-794): products store `sellerId := seller._id`; the
  JWT additionally carries the user's role; update/delete resolve the
  Seller record and compare against `seller._id`.

Mongo ObjectIds are modelled as `Nat`; documents as Lean structures;
each collection as a `List`; `findById` / `findOne` as `List.find?`.
Handlers are pure functions from the database, the request cookie and
the current time to an HTTP status plus the new database (and, for read
endpoints, the response payload).
-/

/-- A document of the `OAuthUsers` collection. -/
structure User where
  id : Nat
  googleId : String
  name : String
  email : String
  picture : String
  role : String
deriving DecidableEq, Repr

/-- A document of the `Sellers` collection. -/
structure Seller where
  id : Nat
  userId : Nat
  name : String
  email : String
  shopName : String
  shopType : String
  shopPhoto : Option String
  shopLocation : Option String
deriving DecidableEq, Repr

/-- A document of the `AllProducts` collection.  Rev 2 declares every
field nullable (`default: null`); rev 1 lacks `productType`, which the
rev-2 schema reads back as `null`, so one structure with `Option`
fields covers documents written by either revision. -/
structure Product where
  id : Nat
  sellerId : Nat
  shopId : Nat
  shopName : Option String
  shopType : Option String
  brand : Option String
  model : Option String
  productType : Option String
  color : Option String
  price : Option Int
  image : Option String
  storage : Option String
  ram : Option String
deriving DecidableEq, Repr

/-- The three Mongo collections backing the server. -/
structure DB where
  users : List User
  sellers : List Seller
  products : List Product
deriving DecidableEq, Repr

/-- Model of `User.findById(id)`. -/
def DB.findUser (db : DB) (i : Nat) : Option User :=
  db.users.find? (fun u => u.id == i)

/-- Model of `Seller.findOne({ userId })`. -/
def DB.findSellerByUser (db : DB) (uid : Nat) : Option Seller :=
  db.sellers.find? (fun s => s.userId == uid)

/-- Model of `Product.findById(id)`. -/
def DB.findProduct (db : DB) (i : Nat) : Option Product :=
  db.products.find? (fun p => p.id == i)

/-! ## Token codec (`jsonwebtoken`) -/

/-- The JWT payload: `{ id }` in rev 1, `{ id, role }` in rev 2, plus
the `exp` claim that `expiresIn: "1d"` adds (issuance time + 86400 s). -/
structure TokenPayload where
  id : Nat
  role : Option String
  exp : Nat
deriving DecidableEq, Repr

/-- A credential as presented in the `token` cookie: either a token
whose signature verifies (carrying its payload) or one that does not
(malformed / wrong signature). -/
inductive Token where
  | signed (p : TokenPayload)
  | forged
deriving DecidableEq, Repr

inductive VerifyError where
  | expired
  | invalid
deriving DecidableEq, Repr

/-- Lifetime from `expiresIn: "1d"`: 24 hours in seconds. -/
def tokenLifetime : Nat := 86400

/-- Model of `jwt.sign({ id, role? }, secret, { expiresIn: "1d" })` at time `now`. -/
def jwtSign (i : Nat) (role : Option String) (now : Nat) : Token :=
  Token.signed { id := i, role := role, exp := now + tokenLifetime }

/-- Model of `jwt.verify(token, secret)` at time `now`: a bad signature throws
`JsonWebTokenError`, an `exp` at or before `now` throws
`TokenExpiredError`, otherwise the payload is returned. -/
def jwtVerify (t : Token) (now : Nat) : Except VerifyError TokenPayload :=
  match t with
  | Token.forged => Except.error VerifyError.invalid
  | Token.signed p =>
      if p.exp ≤ now then Except.error VerifyError.expired else Except.ok p

/-! ## Passport Google strategy (rev 2 lines 474-491) -/

structure GoogleProfile where
  id : String
  displayName : String
  email : String
  photo : String
deriving DecidableEq, Repr

/-- The strategy verify callback: return the user with this `googleId`
if one exists, otherwise create one with role `"customer"`. -/
def findOrCreateUser (db : DB) (gp : GoogleProfile) (newId : Nat) : User × DB :=
  match db.users.find? (fun u => u.googleId == gp.id) with
  | some u => (u, db)
  | none =>
      let nu : User :=
        { id := newId, googleId := gp.id, name := gp.displayName
          email := gp.email, picture := gp.photo, role := "customer" }
      (nu, { db with users := db.users ++ [nu] })

/-! ## GET /profile (rev 2 lines 521-532; identical in rev 1) -/

/-- Handler of `GET /profile`: missing cookie → 401; `jwt.verify` throwing is
caught and answered 401; otherwise 200 with `{ user }`, where the body
is whatever `User.findById` returned — `null` included. -/
def getProfile (db : DB) (cookie : Option Token) (now : Nat) :
    Nat × Option User :=
  match cookie with
  | none => (401, none)
  | some t =>
      match jwtVerify t now with
      | Except.error _ => (401, none)
      | Except.ok d => (200, db.findUser d.id)

/-! ## POST /seller/register (rev 2 lines 535-573; rev 1 lines 158-196
is line-for-line the same logic) -/

structure RegisterBody where
  shopName : String
  shopType : String
  shopLocation : Option String
deriving DecidableEq, Repr

/-- Payload of `Seller.create({...})` payload built at rev 2 lines 555-563. -/
def mkSeller (newId : Nat) (u : User) (body : RegisterBody)
    (file : Option String) : Seller :=
  { id := newId, userId := u.id, name := u.name, email := u.email
    shopName := body.shopName, shopType := body.shopType
    shopPhoto := file, shopLocation := body.shopLocation }

/-- Failure oracle for the two store writes of seller registration:
`Seller.create` and `user.save` are awaited calls to an external store
and may reject; a rejection is caught by the handler's `catch`. -/
structure StoreFailures where
  createFails : Bool
  saveFails : Bool
deriving DecidableEq, Repr

/-- Handler of `POST /seller/register`: missing cookie → 401; a throwing
`jwt.verify` falls into the `catch` → 500; unknown user → 404; an
existing Seller for this user → 400; otherwise `Seller.create` then
`user.role = "seller"; user.save()`.  A rejected `create` leaves the
state unchanged (500); a rejected `save` happens after the Seller
document is persisted, so it leaves the new Seller in place with the
role unpromoted (500). -/
def sellerRegister (db : DB) (cookie : Option Token) (now : Nat)
    (body : RegisterBody) (file : Option String) (newId : Nat)
    (f : StoreFailures) : Nat × DB :=
  match cookie with
  | none => (401, db)
  | some t =>
      match jwtVerify t now with
      | Except.error _ => (500, db)
      | Except.ok d =>
          match db.findUser d.id with
          | none => (404, db)
          | some user =>
              match db.findSellerByUser user.id with
              | some _ => (400, db)
              | none =>
                  if f.createFails then (500, db)
                  else
                    let db1 : DB :=
                      { db with sellers :=
                          db.sellers ++ [mkSeller newId user body file] }
                    if f.saveFails then (500, db1)
                    else
                      let promote : User → User := fun u =>
                        if u.id == user.id then { u with role := "seller" } else u
                      (200, { db1 with users := db1.users.map promote })

/-! ## GET /seller/me (rev 2 lines 576-595) -/

/-- Handler of `GET /seller/me`: `!user || user.role !== "seller"` → 403; no
Seller record → 404; else 200 with the Seller. -/
def sellerMe (db : DB) (cookie : Option Token) (now : Nat) :
    Nat × Option Seller :=
  match cookie with
  | none => (401, none)
  | some t =>
      match jwtVerify t now with
      | Except.error _ => (500, none)
      | Except.ok d =>
          match db.findUser d.id with
          | none => (403, none)
          | some user =>
              if user.role ≠ "seller" then (403, none)
              else
                match db.findSellerByUser user.id with
                | none => (404, none)
                | some s => (200, some s)

/-! ## POST /product/add -/

/-- The multipart body fields of add/update requests; `none` models a
field absent from the request (`undefined` after destructuring). -/
structure ProductBody where
  brand : Option String
  model : Option String
  productType : Option String
  color : Option String
  storage : Option String
  ram : Option String
  price : Option Int
deriving DecidableEq, Repr

/-- Payload of `Product.create({...})` payload of rev 2 lines 630-643:
`sellerId: seller._id, shopId: seller._id`. -/
def mkProduct2 (newId : Nat) (seller : Seller) (b : ProductBody)
    (file : Option String) : Product :=
  { id := newId, sellerId := seller.id, shopId := seller.id
    shopName := some seller.shopName, shopType := some seller.shopType
    brand := b.brand, model := b.model, productType := b.productType
    color := b.color, price := b.price, image := file
    storage := b.storage, ram := b.ram }

/-- Handler of `POST /product/add` (rev 2 lines 598-653). -/
def productAdd (db : DB) (cookie : Option Token) (now : Nat)
    (b : ProductBody) (file : Option String) (newId : Nat) : Nat × DB :=
  match cookie with
  | none => (401, db)
  | some t =>
      match jwtVerify t now with
      | Except.error _ => (500, db)
      | Except.ok d =>
          match db.findUser d.id with
          | none => (403, db)
          | some user =>
              if user.role ≠ "seller" then (403, db)
              else
                match db.findSellerByUser user.id with
                | none => (404, db)
                | some seller =>
                    (200, { db with products :=
                        db.products ++ [mkProduct2 newId seller b file] })

/-- Payload of `Product.create({...})` payload of rev 1 lines 239-251:
`sellerId: user._id, shopId: seller._id`; no `productType` field. -/
def mkProduct1 (newId : Nat) (user : User) (seller : Seller)
    (b : ProductBody) (file : Option String) : Product :=
  { id := newId, sellerId := user.id, shopId := seller.id
    shopName := some seller.shopName, shopType := some seller.shopType
    brand := b.brand, model := b.model, productType := none
    color := b.color, price := b.price, image := file
    storage := b.storage, ram := b.ram }

/-- Handler of `POST /product/add` (rev 1 lines 221-258). -/
def productAdd1 (db : DB) (cookie : Option Token) (now : Nat)
    (b : ProductBody) (file : Option String) (newId : Nat) : Nat × DB :=
  match cookie with
  | none => (401, db)
  | some t =>
      match jwtVerify t now with
      | Except.error _ => (500, db)
      | Except.ok d =>
          match db.findUser d.id with
          | none => (403, db)
          | some user =>
              if user.role ≠ "seller" then (403, db)
              else
                match db.findSellerByUser user.id with
                | none => (404, db)
                | some seller =>
                    (200, { db with products :=
                        db.products ++ [mkProduct1 newId user seller b file] })

/-! ## Listing: `Product.find().sort({ _id: -1 })` -/

/-- Insert into a list kept in descending `_id` order. -/
def insertDesc (p : Product) : List Product → List Product
  | [] => [p]
  | q :: qs => if q.id ≤ p.id then p :: q :: qs else q :: insertDesc p qs

/-- Model of `.sort({ _id: -1 })`: the collection sorted latest-first. -/
def sortByIdDesc (l : List Product) : List Product :=
  l.foldr insertDesc []

/-- Fallback `decoded.role || "customer"`: a missing or falsy (empty) role field
falls back to `"customer"`. -/
def roleOrCustomer : Option String → String
  | none => "customer"
  | some r => if r = "" then "customer" else r

/-- Handler of `GET /products` (rev 2 lines 657-677): the role is `"customer"` by
default; with a cookie whose verification succeeds it is the token's
role claim (`decoded.role || "customer"`); a throwing `jwt.verify` is
swallowed by the inner `try` and leaves the default.  Always 200 with
the full sorted listing. -/
def getProducts (db : DB) (cookie : Option Token) (now : Nat) :
    Nat × List Product × String :=
  let userRole :=
    match cookie with
    | none => "customer"
    | some t =>
        match jwtVerify t now with
        | Except.error _ => "customer"
        | Except.ok d => roleOrCustomer d.role
  (200, sortByIdDesc db.products, userRole)

/-- Handler of `GET /products/my` (rev 2 lines 680-700):
`Product.find({ sellerId: seller._id }).sort({ _id: -1 })`. -/
def productsMy (db : DB) (cookie : Option Token) (now : Nat) :
    Nat × List Product :=
  match cookie with
  | none => (401, [])
  | some t =>
      match jwtVerify t now with
      | Except.error _ => (500, [])
      | Except.ok d =>
          match db.findUser d.id with
          | none => (403, [])
          | some user =>
              if user.role ≠ "seller" then (403, [])
              else
                match db.findSellerByUser user.id with
                | none => (404, [])
                | some seller =>
                    (200, sortByIdDesc
                      (db.products.filter (fun p => p.sellerId == seller.id)))

/-! ## PUT /product/update/:id -/

/-- Rev 2 lines 726-744: destructuring with defaults
`const { brand = product.brand, ... } = req.body` takes the body value
when the field is present and the product's prior value when it is
`undefined`; then every field is assigned back, and the image only when
a file was uploaded. -/
def applyUpdate2 (p : Product) (b : ProductBody) (file : Option String) :
    Product :=
  { p with
    brand := b.brand.or p.brand
    model := b.model.or p.model
    productType := b.productType.or p.productType
    color := b.color.or p.color
    storage := b.storage.or p.storage
    ram := b.ram.or p.ram
    price := b.price.or p.price
    image := file.or p.image }

/-- Model of `product.save()`: write the modified document back into the
collection (documents are addressed by `_id`). -/
def saveProduct (l : List Product) (pid : Nat) (p : Product) : List Product :=
  l.map (fun q => if q.id == pid then p else q)

/-- Handler of `PUT /product/update/:id` (rev 2 lines 703-752): auth chain, then
Seller resolution (404 if absent), then product lookup (404 if absent),
then the ownership check `product.sellerId.equals(seller._id)` (403 on
mismatch), then the partial field update. -/
def productUpdate (db : DB) (cookie : Option Token) (now : Nat)
    (pid : Nat) (b : ProductBody) (file : Option String) : Nat × DB :=
  match cookie with
  | none => (401, db)
  | some t =>
      match jwtVerify t now with
      | Except.error _ => (500, db)
      | Except.ok d =>
          match db.findUser d.id with
          | none => (403, db)
          | some user =>
              if user.role ≠ "seller" then (403, db)
              else
                match db.findSellerByUser user.id with
                | none => (404, db)
                | some seller =>
                    match db.findProduct pid with
                    | none => (404, db)
                    | some product =>
                        if product.sellerId ≠ seller.id then (403, db)
                        else
                          let p2 := applyUpdate2 product b file
                          (200, { db with products := saveProduct db.products pid p2 })

/-- Handler of `DELETE /product/delete/:id` (rev 2 lines 755-784): same chain,
ownership against `seller._id`, then `Product.findByIdAndDelete`. -/
def productDelete (db : DB) (cookie : Option Token) (now : Nat)
    (pid : Nat) : Nat × DB :=
  match cookie with
  | none => (401, db)
  | some t =>
      match jwtVerify t now with
      | Except.error _ => (500, db)
      | Except.ok d =>
          match db.findUser d.id with
          | none => (403, db)
          | some user =>
              if user.role ≠ "seller" then (403, db)
              else
                match db.findSellerByUser user.id with
                | none => (404, db)
                | some seller =>
                    match db.findProduct pid with
                    | none => (404, db)
                    | some product =>
                        if product.sellerId ≠ seller.id then (403, db)
                        else
                          (200, { db with products :=
                              db.products.filter (fun q => q.id ≠ pid) })

/-- JavaScript truthiness of a possibly-absent string field: absent
(`undefined`) and the empty string are falsy. -/
def truthyStr : Option String → Bool
  | none => false
  | some s => s ≠ ""

/-- JavaScript truthiness of a possibly-absent number field: absent and
`0` are falsy. -/
def truthyInt : Option Int → Bool
  | none => false
  | some n => n ≠ 0

/-- Rev 1 lines 315-324: `if (brand) product.brand = brand; ...` — a
field is overwritten only when its body value is truthy. -/
def applyUpdate1 (p : Product) (b : ProductBody) (file : Option String) :
    Product :=
  { p with
    brand := if truthyStr b.brand then b.brand else p.brand
    model := if truthyStr b.model then b.model else p.model
    color := if truthyStr b.color then b.color else p.color
    storage := if truthyStr b.storage then b.storage else p.storage
    ram := if truthyStr b.ram then b.ram else p.ram
    price := if truthyInt b.price then b.price else p.price
    image := file.or p.image }

/-- Handler of `PUT /product/update/:id` (rev 1 lines 295-332): no Seller lookup;
the ownership check is `product.sellerId.equals(user._id)`. -/
def productUpdate1 (db : DB) (cookie : Option Token) (now : Nat)
    (pid : Nat) (b : ProductBody) (file : Option String) : Nat × DB :=
  match cookie with
  | none => (401, db)
  | some t =>
      match jwtVerify t now with
      | Except.error _ => (500, db)
      | Except.ok d =>
          match db.findUser d.id with
          | none => (403, db)
          | some user =>
              if user.role ≠ "seller" then (403, db)
              else
                match db.findProduct pid with
                | none => (404, db)
                | some product =>
                    if product.sellerId ≠ user.id then (403, db)
                    else
                      let p1 := applyUpdate1 product b file
                      (200, { db with products := saveProduct db.products pid p1 })

/-- Handler of `DELETE /product/delete/:id` (rev 1 lines 335-361): ownership
against `user._id`. -/
def productDelete1 (db : DB) (cookie : Option Token) (now : Nat)
    (pid : Nat) : Nat × DB :=
  match cookie with
  | none => (401, db)
  | some t =>
      match jwtVerify t now with
      | Except.error _ => (500, db)
      | Except.ok d =>
          match db.findUser d.id with
          | none => (403, db)
          | some user =>
              if user.role ≠ "seller" then (403, db)
              else
                match db.findProduct pid with
                | none => (404, db)
                | some product =>
                    if product.sellerId ≠ user.id then (403, db)
                    else
                      (200, { db with products :=
                          db.products.filter (fun q => q.id ≠ pid) })

/-! ## Helper lemmas -/

theorem mem_insertDesc (p q : Product) (l : List Product) :
    q ∈ insertDesc p l ↔ q = p ∨ q ∈ l := by
  induction l with
  | nil => simp [insertDesc]
  | cons a as ih =>
      simp only [insertDesc]
      by_cases h : a.id ≤ p.id
      · simp [h, List.mem_cons]
      · simp [h, List.mem_cons, ih]
        tauto

theorem mem_sortByIdDesc (q : Product) (l : List Product) :
    q ∈ sortByIdDesc l ↔ q ∈ l := by
  induction l with
  | nil => simp [sortByIdDesc]
  | cons a as ih =>
      simp only [sortByIdDesc, List.foldr] at ih ⊢
      rw [mem_insertDesc, ih, List.mem_cons]

/-! ## Claim theorems -/

/-- C10: a credential issued for user id `uid` verifies to a payload
carrying `uid` at any time strictly before the 24-hour lifetime
(`tokenLifetime`) elapses, and verification fails with `Expired` at any
time from the moment the lifetime has elapsed on. -/
theorem c10_token_roundtrip (uid : Nat) (role : Option String) (issuedAt t : Nat) :
    (t < issuedAt + tokenLifetime →
      ∃ d, jwtVerify (jwtSign uid role issuedAt) t = Except.ok d ∧ d.id = uid) ∧
    (issuedAt + tokenLifetime ≤ t →
      jwtVerify (jwtSign uid role issuedAt) t = Except.error VerifyError.expired) := by
  constructor
  · intro h
    refine ⟨{ id := uid, role := role, exp := issuedAt + tokenLifetime }, ?_, rfl⟩
    simp [jwtVerify, jwtSign, Nat.not_le.mpr h]
  · intro h
    simp [jwtVerify, jwtSign, h]

/-- Witness for C10 at a concrete issuance time. -/
theorem c10_token_roundtrip_witness :
    (∃ d, jwtVerify (jwtSign 1 none 0) 5 = Except.ok d ∧ d.id = 1) ∧
    jwtVerify (jwtSign 1 none 0) 86400 = Except.error VerifyError.expired :=
  ⟨(c10_token_roundtrip 1 none 0 5).1 (by decide),
   (c10_token_roundtrip 1 none 0 86400).2 (by decide)⟩

/-- C8: the public listing with no cookie answers 200 with the full
sorted listing and `userRole = "customer"`; with a cookie whose
verification fails (expired, malformed or wrongly signed) it degrades
to the same anonymous answer instead of failing; and the returned
listing contains exactly the products of the store. -/
theorem c8_products_public_listing (db : DB) (now : Nat) :
    getProducts db none now = (200, sortByIdDesc db.products, "customer") ∧
    (∀ (t : Token) (e : VerifyError), jwtVerify t now = Except.error e →
      getProducts db (some t) now = (200, sortByIdDesc db.products, "customer")) ∧
    (∀ p : Product, p ∈ (getProducts db none now).2.1 ↔ p ∈ db.products) := by
  refine ⟨rfl, ?_, ?_⟩
  · intro t e h
    simp [getProducts, h]
  · intro p
    exact mem_sortByIdDesc p db.products

/-- Witness for C8 at a concrete store and a concrete expired token. -/
theorem c8_products_public_listing_witness :
    getProducts { users := [], sellers := [], products := [] } none 0 =
      (200, [], "customer") ∧
    getProducts { users := [], sellers := [], products := [] }
      (some (jwtSign 1 (some "seller") 0)) 90000 = (200, [], "customer") :=
  ⟨(c8_products_public_listing { users := [], sellers := [], products := [] } 0).1,
   (c8_products_public_listing { users := [], sellers := [], products := [] } 90000).2.1
     (jwtSign 1 (some "seller") 0) VerifyError.expired rfl⟩

/-- C9 counterexample: user id 1 has role `"seller"` in the store, yet
a valid, unexpired credential of that user issued before the promotion
(role claim `"customer"`) makes `GET /products` report
`userRole = "customer"`, because the handler reads `decoded.role` from
the token and never consults the User record. -/
theorem c9_counterexample :
    (jwtVerify (jwtSign 1 (some "customer") 0) 100 =
      Except.ok { id := 1, role := some "customer", exp := 86400 }) ∧
    (getProducts
      { users := [{ id := 1, googleId := "g1", name := "A", email := "a@x"
                    picture := "p", role := "seller" }]
        sellers := [{ id := 7, userId := 1, name := "A", email := "a@x"
                      shopName := "S", shopType := "T", shopPhoto := none
                      shopLocation := none }]
        products := [] }
      (some (jwtSign 1 (some "customer") 0)) 100).2.2 = "customer" ∧
    "customer" ≠ "seller" := by
  refine ⟨rfl, rfl, by decide⟩

/-- C9 (amended): `GET /products` with a valid, unexpired credential
that was issued while the user's role was `"seller"` (so the token's
role claim is `"seller"`) reports `userRole = "seller"`; the reported
role is the credential's issuance-time snapshot, not the User record's
current role. -/
theorem c9_amended_credential_role (db : DB) (u : User) (issuedAt now : Nat)
    (hrole : u.role = "seller") (hfresh : now < issuedAt + tokenLifetime) :
    getProducts db (some (jwtSign u.id (some u.role) issuedAt)) now =
      (200, sortByIdDesc db.products, "seller") := by
  rw [hrole]
  simp [getProducts, jwtVerify, jwtSign, Nat.not_le.mpr hfresh, roleOrCustomer]

/-- Witness for the amended C9 at a concrete user and time. -/
theorem c9_amended_credential_role_witness :
    getProducts { users := [], sellers := [], products := [] }
      (some (jwtSign 3 (some "seller") 0)) 10 =
      (200, sortByIdDesc [], "seller") :=
  c9_amended_credential_role { users := [], sellers := [], products := [] }
    { id := 3, googleId := "g", name := "B", email := "b@x", picture := "p"
      role := "seller" } 0 10 rfl (by decide)

/-- C6: a seller-registration attempt by a user for whom a Seller
record already exists answers 400 and leaves the store unchanged, with
no assumption on the user's role field — so it holds whether or not the
role-promotion step of the first registration completed. -/
theorem c6_duplicate_registration_conflict (db : DB) (t : Token) (now : Nat)
    (body : RegisterBody) (file : Option String) (newId : Nat)
    (f : StoreFailures) (d : TokenPayload) (u : User) (s : Seller)
    (hv : jwtVerify t now = Except.ok d)
    (hu : db.findUser d.id = some u)
    (hs : db.findSellerByUser u.id = some s) :
    sellerRegister db (some t) now body file newId f = (400, db) := by
  simp [sellerRegister, hv, hu, hs]

/-- Witness for C6: the user's role is still `"customer"` (promotion
not completed), the Seller record exists, and the second attempt is
answered 400 with the store unchanged. -/
theorem c6_duplicate_registration_conflict_witness :
    sellerRegister
      { users := [{ id := 1, googleId := "g1", name := "A", email := "a@x"
                    picture := "p", role := "customer" }]
        sellers := [{ id := 7, userId := 1, name := "A", email := "a@x"
                      shopName := "S", shopType := "T", shopPhoto := none
                      shopLocation := none }]
        products := [] }
      (some (jwtSign 1 (some "customer") 0)) 0
      { shopName := "S2", shopType := "T2", shopLocation := none } none 9
      { createFails := false, saveFails := false } =
    (400,
      { users := [{ id := 1, googleId := "g1", name := "A", email := "a@x"
                    picture := "p", role := "customer" }]
        sellers := [{ id := 7, userId := 1, name := "A", email := "a@x"
                      shopName := "S", shopType := "T", shopPhoto := none
                      shopLocation := none }]
        products := [] }) :=
  c6_duplicate_registration_conflict _ _ _ _ _ _ _
    { id := 1, role := some "customer", exp := 86400 }
    { id := 1, googleId := "g1", name := "A", email := "a@x"
      picture := "p", role := "customer" }
    { id := 7, userId := 1, name := "A", email := "a@x"
      shopName := "S", shopType := "T", shopPhoto := none
      shopLocation := none }
    rfl rfl rfl

/-- C4: for an authenticated request that verifies to an existing user
with role `"seller"`, updating or deleting a product id that matches no
Product record answers 404 (never 403) and leaves the store unchanged —
the product-existence check precedes the ownership comparison. -/
theorem c4_unknown_product_not_found (db : DB) (t : Token) (now pid : Nat)
    (d : TokenPayload) (u : User)
    (hv : jwtVerify t now = Except.ok d)
    (hu : db.findUser d.id = some u)
    (hr : u.role = "seller")
    (hp : db.findProduct pid = none) :
    (∀ (b : ProductBody) (file : Option String),
      productUpdate db (some t) now pid b file = (404, db)) ∧
    productDelete db (some t) now pid = (404, db) ∧
    (404 : Nat) ≠ 403 := by
  refine ⟨?_, ?_, by decide⟩ <;>
    cases hsell : db.findSellerByUser u.id <;>
      simp [productUpdate, productDelete, hv, hu, hr, hp, hsell]

/-- Witness for C4: product id 42 does not exist; update and delete
both answer 404. -/
theorem c4_unknown_product_not_found_witness :
    (∀ (b : ProductBody) (file : Option String),
      productUpdate
        { users := [{ id := 1, googleId := "g1", name := "A", email := "a@x"
                      picture := "p", role := "seller" }]
          sellers := [{ id := 7, userId := 1, name := "A", email := "a@x"
                        shopName := "S", shopType := "T", shopPhoto := none
                        shopLocation := none }]
          products := [] }
        (some (jwtSign 1 (some "seller") 0)) 0 42 b file =
      (404,
        { users := [{ id := 1, googleId := "g1", name := "A", email := "a@x"
                      picture := "p", role := "seller" }]
          sellers := [{ id := 7, userId := 1, name := "A", email := "a@x"
                        shopName := "S", shopType := "T", shopPhoto := none
                        shopLocation := none }]
          products := [] })) ∧
    (404 : Nat) ≠ 403 :=
  ⟨fun b file =>
    (c4_unknown_product_not_found
      { users := [{ id := 1, googleId := "g1", name := "A", email := "a@x"
                    picture := "p", role := "seller" }]
        sellers := [{ id := 7, userId := 1, name := "A", email := "a@x"
                      shopName := "S", shopType := "T", shopPhoto := none
                      shopLocation := none }]
        products := [] }
      (jwtSign 1 (some "seller") 0) 0 42
      { id := 1, role := some "seller", exp := 86400 }
      { id := 1, googleId := "g1", name := "A", email := "a@x"
        picture := "p", role := "seller" }
      rfl rfl rfl rfl).1 b file,
   by decide⟩

/-- C2 counterexample: the credential verifies (subject id 1) but no
User record with id 1 exists, and `GET /profile` answers 200 with a
null user — not 401 as the claim states. -/
theorem c2_counterexample :
    getProfile { users := [], sellers := [], products := [] }
      (some (jwtSign 1 (some "customer") 0)) 0 = (200, none) ∧
    (200 : Nat) ≠ 401 := by
  exact ⟨rfl, by decide⟩

/-- C2 (amended): when the credential verifies but its subject id does
not resolve to a User record, no operation answers 401: `GET /profile`
answers 200 with a null user, `POST /seller/register` answers 404, and
the seller-scoped operations (`GET /seller/me`, `POST /product/add`,
`GET /products/my`, `PUT /product/update/:id`,
`DELETE /product/delete/:id`) answer 403; the store is unchanged. -/
theorem c2_amended_missing_user_statuses (db : DB) (t : Token) (now : Nat)
    (d : TokenPayload)
    (hv : jwtVerify t now = Except.ok d)
    (hu : db.findUser d.id = none) :
    getProfile db (some t) now = (200, none) ∧
    (∀ (body : RegisterBody) (file : Option String) (newId : Nat)
       (f : StoreFailures),
      sellerRegister db (some t) now body file newId f = (404, db)) ∧
    sellerMe db (some t) now = (403, none) ∧
    (∀ (b : ProductBody) (file : Option String) (newId : Nat),
      productAdd db (some t) now b file newId = (403, db)) ∧
    productsMy db (some t) now = (403, []) ∧
    (∀ (pid : Nat) (b : ProductBody) (file : Option String),
      productUpdate db (some t) now pid b file = (403, db)) ∧
    (∀ pid : Nat, productDelete db (some t) now pid = (403, db)) := by
  refine ⟨?_, ?_, ?_, ?_, ?_, ?_, ?_⟩ <;>
    simp [getProfile, sellerRegister, sellerMe, productAdd, productsMy,
          productUpdate, productDelete, hv, hu]

/-- Witness for the amended C2 on an empty user store. -/
theorem c2_amended_missing_user_statuses_witness :
    getProfile { users := [], sellers := [], products := [] }
      (some (jwtSign 1 (some "customer") 0)) 0 = (200, none) ∧
    sellerMe { users := [], sellers := [], products := [] }
      (some (jwtSign 1 (some "customer") 0)) 0 = (403, none) ∧
    (∀ pid : Nat, productDelete { users := [], sellers := [], products := [] }
      (some (jwtSign 1 (some "customer") 0)) 0 pid =
      (403, { users := [], sellers := [], products := [] })) := by
  have h := c2_amended_missing_user_statuses
    { users := [], sellers := [], products := [] }
    (jwtSign 1 (some "customer") 0) 0
    { id := 1, role := some "customer", exp := 86400 } rfl rfl
  exact ⟨h.1, h.2.2.1, h.2.2.2.2.2.2⟩

/-- C5 counterexample: user id 1 has no Seller record; `Seller.create`
succeeds and the subsequent `user.save` (role promotion) fails, so the
request answers 500 while the Seller Directory has changed — a failing
registration request does not leave the Seller Directory unchanged. -/
theorem c5_counterexample :
    (sellerRegister
      { users := [{ id := 1, googleId := "g1", name := "A", email := "a@x"
                    picture := "p", role := "customer" }]
        sellers := [], products := [] }
      (some (jwtSign 1 (some "customer") 0)) 0
      { shopName := "S", shopType := "T", shopLocation := none } none 9
      { createFails := false, saveFails := true }).1 = 500 ∧
    (sellerRegister
      { users := [{ id := 1, googleId := "g1", name := "A", email := "a@x"
                    picture := "p", role := "customer" }]
        sellers := [], products := [] }
      (some (jwtSign 1 (some "customer") 0)) 0
      { shopName := "S", shopType := "T", shopLocation := none } none 9
      { createFails := false, saveFails := true }).2.sellers ≠ [] := by
  exact ⟨rfl, by decide⟩

/-- C5 (amended): registration for a user with no Seller record creates
the Seller and promotes the role when both store writes succeed; a
failing `Seller.create` answers 500 with the store unchanged; but a
failing role-save after a successful `Seller.create` answers 500 with
the Seller record persisted and the role unchanged — the two writes are
not atomic, so this partial outcome is possible. -/
theorem c5_amended_registration_outcomes (db : DB) (t : Token) (now : Nat)
    (body : RegisterBody) (file : Option String) (newId : Nat)
    (d : TokenPayload) (u : User)
    (hv : jwtVerify t now = Except.ok d)
    (hu : db.findUser d.id = some u)
    (hns : db.findSellerByUser u.id = none) :
    (∀ sv : Bool, sellerRegister db (some t) now body file newId
        { createFails := true, saveFails := sv } = (500, db)) ∧
    sellerRegister db (some t) now body file newId
        { createFails := false, saveFails := true } =
      (500, { db with sellers := db.sellers ++ [mkSeller newId u body file] }) ∧
    sellerRegister db (some t) now body file newId
        { createFails := false, saveFails := false } =
      (200, { users := db.users.map
                (fun w => if w.id == u.id then { w with role := "seller" } else w)
              sellers := db.sellers ++ [mkSeller newId u body file]
              products := db.products }) := by
  refine ⟨?_, ?_, ?_⟩ <;> simp [sellerRegister, hv, hu, hns]

/-- Witness for the amended C5 at a concrete one-user store. -/
theorem c5_amended_registration_outcomes_witness :
    sellerRegister
      { users := [{ id := 1, googleId := "g1", name := "A", email := "a@x"
                    picture := "p", role := "customer" }]
        sellers := [], products := [] }
      (some (jwtSign 1 (some "customer") 0)) 0
      { shopName := "S", shopType := "T", shopLocation := none } none 9
      { createFails := false, saveFails := true } =
    (500,
      { users := [{ id := 1, googleId := "g1", name := "A", email := "a@x"
                    picture := "p", role := "customer" }]
        sellers := [] ++ [mkSeller 9
          { id := 1, googleId := "g1", name := "A", email := "a@x"
            picture := "p", role := "customer" }
          { shopName := "S", shopType := "T", shopLocation := none } none]
        products := [] }) :=
  (c5_amended_registration_outcomes
    { users := [{ id := 1, googleId := "g1", name := "A", email := "a@x"
                  picture := "p", role := "customer" }]
      sellers := [], products := [] }
    (jwtSign 1 (some "customer") 0) 0
    { shopName := "S", shopType := "T", shopLocation := none } none 9
    { id := 1, role := some "customer", exp := 86400 }
    { id := 1, googleId := "g1", name := "A", email := "a@x"
      picture := "p", role := "customer" }
    rfl rfl rfl).2.1

/-- C1: an authenticated request that resolves to user `u` with role
`"seller"` and Seller record `s`, targeting an existing product `p`
owned by a different seller (`p.sellerId ≠ s.id`), is answered 403 by
both rev-2 update and delete with the store unchanged; and under the
rev-1 handlers, where ownership is compared against the user id, a
product created by a different user (`p.sellerId ≠ u.id`) is likewise
answered 403 with the store unchanged. -/
theorem c1_foreign_product_forbidden (db : DB) (t : Token) (now pid : Nat)
    (d : TokenPayload) (u : User) (s : Seller) (p : Product)
    (hv : jwtVerify t now = Except.ok d)
    (hu : db.findUser d.id = some u)
    (hr : u.role = "seller")
    (hs : db.findSellerByUser u.id = some s)
    (hp : db.findProduct pid = some p)
    (hneq : p.sellerId ≠ s.id)
    (hneq1 : p.sellerId ≠ u.id) :
    (∀ (b : ProductBody) (file : Option String),
      productUpdate db (some t) now pid b file = (403, db)) ∧
    productDelete db (some t) now pid = (403, db) ∧
    (∀ (b : ProductBody) (file : Option String),
      productUpdate1 db (some t) now pid b file = (403, db)) ∧
    productDelete1 db (some t) now pid = (403, db) := by
  refine ⟨?_, ?_, ?_, ?_⟩ <;>
    simp [productUpdate, productDelete, productUpdate1, productDelete1,
          hv, hu, hr, hs, hp, hneq, hneq1]

/-- Witness for C1: seller B (user 2, seller record 8) attacks the
product of seller A (product 100 with sellerId 7, created by user 1);
both update and delete answer 403 and change nothing. -/
theorem c1_foreign_product_forbidden_witness :
    productDelete
      { users := [{ id := 2, googleId := "g2", name := "B", email := "b@x"
                    picture := "p", role := "seller" }]
        sellers := [{ id := 8, userId := 2, name := "B", email := "b@x"
                      shopName := "S2", shopType := "T2", shopPhoto := none
                      shopLocation := none }]
        products := [{ id := 100, sellerId := 7, shopId := 7
                       shopName := some "S", shopType := some "T"
                       brand := none, model := none, productType := none
                       color := none, price := none, image := none
                       storage := none, ram := none }] }
      (some (jwtSign 2 (some "seller") 0)) 0 100 =
    (403,
      { users := [{ id := 2, googleId := "g2", name := "B", email := "b@x"
                    picture := "p", role := "seller" }]
        sellers := [{ id := 8, userId := 2, name := "B", email := "b@x"
                      shopName := "S2", shopType := "T2", shopPhoto := none
                      shopLocation := none }]
        products := [{ id := 100, sellerId := 7, shopId := 7
                       shopName := some "S", shopType := some "T"
                       brand := none, model := none, productType := none
                       color := none, price := none, image := none
                       storage := none, ram := none }] }) :=
  (c1_foreign_product_forbidden
    { users := [{ id := 2, googleId := "g2", name := "B", email := "b@x"
                  picture := "p", role := "seller" }]
      sellers := [{ id := 8, userId := 2, name := "B", email := "b@x"
                    shopName := "S2", shopType := "T2", shopPhoto := none
                    shopLocation := none }]
      products := [{ id := 100, sellerId := 7, shopId := 7
                     shopName := some "S", shopType := some "T"
                     brand := none, model := none, productType := none
                     color := none, price := none, image := none
                     storage := none, ram := none }] }
    (jwtSign 2 (some "seller") 0) 0 100
    { id := 2, role := some "seller", exp := 86400 }
    { id := 2, googleId := "g2", name := "B", email := "b@x"
      picture := "p", role := "seller" }
    { id := 8, userId := 2, name := "B", email := "b@x"
      shopName := "S2", shopType := "T2", shopPhoto := none
      shopLocation := none }
    { id := 100, sellerId := 7, shopId := 7
      shopName := some "S", shopType := some "T"
      brand := none, model := none, productType := none
      color := none, price := none, image := none
      storage := none, ram := none }
    rfl rfl rfl rfl rfl (by decide) (by decide)).2.1

/-! ## Referential invariant: products reference existing sellers -/

/-- Every Product's owning-seller id references an existing Seller. -/
def sellerRefOK (db : DB) : Prop :=
  ∀ p ∈ db.products, ∃ s ∈ db.sellers, s.id = p.sellerId

theorem findOrCreateUser_pres (db : DB) (gp : GoogleProfile) (newId : Nat)
    (h : sellerRefOK db) : sellerRefOK (findOrCreateUser db gp newId).2 := by
  unfold findOrCreateUser
  repeat' split
  any_goals exact h

theorem sellerRegister_pres (db : DB) (c : Option Token) (now : Nat)
    (body : RegisterBody) (file : Option String) (newId : Nat)
    (f : StoreFailures) (h : sellerRefOK db) :
    sellerRefOK (sellerRegister db c now body file newId f).2 := by
  unfold sellerRegister
  repeat' split
  any_goals exact h
  all_goals
    intro p hp
    rcases h p hp with ⟨s, hsmem, hsid⟩
    exact ⟨s, List.mem_append_left _ hsmem, hsid⟩

theorem productAdd_pres (db : DB) (c : Option Token) (now : Nat)
    (b : ProductBody) (file : Option String) (newId : Nat)
    (h : sellerRefOK db) : sellerRefOK (productAdd db c now b file newId).2 := by
  unfold productAdd
  repeat' split
  any_goals exact h
  rename_i user hr seller hs
  intro p hp
  rcases List.mem_append.mp hp with hp | hp
  · exact h p hp
  · rcases List.mem_singleton.mp hp with rfl
    exact ⟨seller, List.mem_of_find?_eq_some hs, rfl⟩

theorem productUpdate_pres (db : DB) (c : Option Token) (now pid : Nat)
    (b : ProductBody) (file : Option String)
    (h : sellerRefOK db) : sellerRefOK (productUpdate db c now pid b file).2 := by
  unfold productUpdate
  repeat' split
  any_goals exact h
  rename_i user hr seller hsell product hfind hown
  intro p hpm
  rcases List.mem_map.mp hpm with ⟨q, hq, hqe⟩
  by_cases hid : (q.id == pid) = true
  · rw [if_pos hid] at hqe
    rcases h product (List.mem_of_find?_eq_some hfind) with ⟨s, hsmem, hsid⟩
    exact ⟨s, hsmem, by rw [← hqe]; exact hsid⟩
  · rw [if_neg hid] at hqe
    rcases h q hq with ⟨s, hsmem, hsid⟩
    exact ⟨s, hsmem, by rw [← hqe]; exact hsid⟩

theorem productDelete_pres (db : DB) (c : Option Token) (now pid : Nat)
    (h : sellerRefOK db) : sellerRefOK (productDelete db c now pid).2 := by
  unfold productDelete
  repeat' split
  any_goals exact h
  intro p hpm
  exact h p (List.mem_of_mem_filter hpm)

/-- C3 counterexample: in rev 1 the add-product operation stores the
creating user's own id as the product's owning-seller id — here user 5
with Seller record 7 creates a product whose `sellerId` is 5, and no
Seller record with id 5 exists. -/
theorem c3_counterexample :
    (productAdd1
      { users := [{ id := 5, googleId := "g5", name := "A", email := "a@x"
                    picture := "p", role := "seller" }]
        sellers := [{ id := 7, userId := 5, name := "A", email := "a@x"
                      shopName := "S", shopType := "T", shopPhoto := none
                      shopLocation := none }]
        products := [] }
      (some (jwtSign 5 none 0)) 0
      { brand := none, model := none, productType := none, color := none
        storage := none, ram := none, price := none } none 100).1 = 200 ∧
    ∃ p ∈ (productAdd1
      { users := [{ id := 5, googleId := "g5", name := "A", email := "a@x"
                    picture := "p", role := "seller" }]
        sellers := [{ id := 7, userId := 5, name := "A", email := "a@x"
                      shopName := "S", shopType := "T", shopPhoto := none
                      shopLocation := none }]
        products := [] }
      (some (jwtSign 5 none 0)) 0
      { brand := none, model := none, productType := none, color := none
        storage := none, ram := none, price := none } none 100).2.products,
      p.sellerId = 5 ∧
      ∀ s ∈ (productAdd1
        { users := [{ id := 5, googleId := "g5", name := "A", email := "a@x"
                      picture := "p", role := "seller" }]
          sellers := [{ id := 7, userId := 5, name := "A", email := "a@x"
                        shopName := "S", shopType := "T", shopPhoto := none
                        shopLocation := none }]
          products := [] }
        (some (jwtSign 5 none 0)) 0
        { brand := none, model := none, productType := none, color := none
          storage := none, ram := none, price := none } none 100).2.sellers,
        s.id ≠ p.sellerId := by
  decide

/-- C3 (amended): under rev 2, a product created through the
add-product operation carries `sellerId` equal to the `_id` of the
creating user's existing Seller record (not the user's own id), and
every rev-2 state-changing operation (user upsert at login, seller
registration, product add/update/delete) preserves the invariant that
each Product's owning-seller id references an existing Seller.  Under
rev 1 the stored `sellerId` is the creating user's own id instead. -/
theorem c3_amended_seller_reference (db : DB) (t : Token) (now : Nat)
    (b : ProductBody) (file : Option String) (newId : Nat)
    (d : TokenPayload) (u : User) (s : Seller)
    (hv : jwtVerify t now = Except.ok d)
    (hu : db.findUser d.id = some u)
    (hr : u.role = "seller")
    (hs : db.findSellerByUser u.id = some s)
    (hinv : sellerRefOK db) :
    productAdd db (some t) now b file newId =
      (200, { db with products := db.products ++ [mkProduct2 newId s b file] }) ∧
    (mkProduct2 newId s b file).sellerId = s.id ∧
    s ∈ db.sellers ∧
    (∀ (c2 : Option Token) (n2 : Nat) (b2 : ProductBody)
       (f2 : Option String) (i2 : Nat),
      sellerRefOK (productAdd db c2 n2 b2 f2 i2).2) ∧
    (∀ (c2 : Option Token) (n2 : Nat) (body2 : RegisterBody)
       (f2 : Option String) (i2 : Nat) (fl : StoreFailures),
      sellerRefOK (sellerRegister db c2 n2 body2 f2 i2 fl).2) ∧
    (∀ (c2 : Option Token) (n2 pid : Nat) (b2 : ProductBody)
       (f2 : Option String),
      sellerRefOK (productUpdate db c2 n2 pid b2 f2).2) ∧
    (∀ (c2 : Option Token) (n2 pid : Nat),
      sellerRefOK (productDelete db c2 n2 pid).2) ∧
    (∀ (gp : GoogleProfile) (i2 : Nat),
      sellerRefOK (findOrCreateUser db gp i2).2) := by
  refine ⟨?_, rfl, List.mem_of_find?_eq_some hs,
    fun c2 n2 b2 f2 i2 => productAdd_pres db c2 n2 b2 f2 i2 hinv,
    fun c2 n2 body2 f2 i2 fl => sellerRegister_pres db c2 n2 body2 f2 i2 fl hinv,
    fun c2 n2 pid b2 f2 => productUpdate_pres db c2 n2 pid b2 f2 hinv,
    fun c2 n2 pid => productDelete_pres db c2 n2 pid hinv,
    fun gp i2 => findOrCreateUser_pres db gp i2 hinv⟩
  simp [productAdd, hv, hu, hr, hs]

/-- Witness for the amended C3 at a concrete one-seller store. -/
theorem c3_amended_seller_reference_witness :
    productAdd
      { users := [{ id := 5, googleId := "g5", name := "A", email := "a@x"
                    picture := "p", role := "seller" }]
        sellers := [{ id := 7, userId := 5, name := "A", email := "a@x"
                      shopName := "S", shopType := "T", shopPhoto := none
                      shopLocation := none }]
        products := [] }
      (some (jwtSign 5 (some "seller") 0)) 0
      { brand := none, model := none, productType := none, color := none
        storage := none, ram := none, price := none } none 100 =
    (200,
      { users := [{ id := 5, googleId := "g5", name := "A", email := "a@x"
                    picture := "p", role := "seller" }]
        sellers := [{ id := 7, userId := 5, name := "A", email := "a@x"
                      shopName := "S", shopType := "T", shopPhoto := none
                      shopLocation := none }]
        products := [] ++ [mkProduct2 100
          { id := 7, userId := 5, name := "A", email := "a@x"
            shopName := "S", shopType := "T", shopPhoto := none
            shopLocation := none }
          { brand := none, model := none, productType := none, color := none
            storage := none, ram := none, price := none } none] }) :=
  (c3_amended_seller_reference
    { users := [{ id := 5, googleId := "g5", name := "A", email := "a@x"
                  picture := "p", role := "seller" }]
      sellers := [{ id := 7, userId := 5, name := "A", email := "a@x"
                    shopName := "S", shopType := "T", shopPhoto := none
                    shopLocation := none }]
      products := [] }
    (jwtSign 5 (some "seller") 0) 0
    { brand := none, model := none, productType := none, color := none
      storage := none, ram := none, price := none } none 100
    { id := 5, role := some "seller", exp := 86400 }
    { id := 5, googleId := "g5", name := "A", email := "a@x"
      picture := "p", role := "seller" }
    { id := 7, userId := 5, name := "A", email := "a@x"
      shopName := "S", shopType := "T", shopPhoto := none
      shopLocation := none }
    rfl rfl rfl rfl (by intro p hp; exact absurd hp (List.not_mem_nil p))).1

theorem or_or_self {α : Type} (o x : Option α) : o.or (o.or x) = o.or x := by
  cases o <;> rfl

theorem ite_self_else {α : Type} (c : Prop) [Decidable c] (x y : α) :
    (if c then x else (if c then x else y)) = if c then x else y := by
  by_cases h : c <;> simp [h]

theorem applyUpdate2_sellerId (p : Product) (b : ProductBody) (f : Option String) :
    (applyUpdate2 p b f).sellerId = p.sellerId := rfl

theorem applyUpdate2_id (p : Product) (b : ProductBody) (f : Option String) :
    (applyUpdate2 p b f).id = p.id := rfl

theorem applyUpdate2_idem (p : Product) (b : ProductBody) (f : Option String) :
    applyUpdate2 (applyUpdate2 p b f) b f = applyUpdate2 p b f := by
  cases p
  simp [applyUpdate2, or_or_self]

theorem applyUpdate1_idem (q : Product) (b : ProductBody) (f : Option String) :
    applyUpdate1 (applyUpdate1 q b f) b f = applyUpdate1 q b f := by
  cases q
  simp [applyUpdate1, or_or_self, ite_self_else]

theorem saveProduct_cons (a : Product) (as : List Product) (pid : Nat)
    (pnew : Product) :
    saveProduct (a :: as) pid pnew =
      (if (a.id == pid) = true then pnew else a) :: saveProduct as pid pnew := rfl

theorem find?_saveProduct (l : List Product) (pid : Nat) (pnew : Product)
    (hid : (pnew.id == pid) = true) (p : Product)
    (hfind : l.find? (fun q => q.id == pid) = some p) :
    (saveProduct l pid pnew).find? (fun q => q.id == pid) = some pnew := by
  induction l with
  | nil => simp at hfind
  | cons a as ih =>
      rw [saveProduct_cons]
      by_cases ha : (a.id == pid) = true
      · rw [if_pos ha]
        simp [List.find?_cons, hid]
      · have ha2 : (a.id == pid) = false := by simpa using ha
        rw [if_neg ha]
        rw [List.find?_cons, ha2] at hfind
        simp only [List.find?_cons, ha2]
        exact ih hfind

theorem saveProduct_idem (l : List Product) (pid : Nat) (pnew : Product)
    (hid : (pnew.id == pid) = true) :
    saveProduct (saveProduct l pid pnew) pid pnew = saveProduct l pid pnew := by
  induction l with
  | nil => rfl
  | cons a as ih =>
      rw [saveProduct_cons, saveProduct_cons, ih]
      congr 1
      by_cases ha : (a.id == pid) = true
      · simp only [if_pos ha, if_pos hid]
      · simp only [if_neg ha]

theorem findUser_products (db : DB) (l : List Product) (i : Nat) :
    DB.findUser { db with products := l } i = db.findUser i := rfl

theorem findSellerByUser_products (db : DB) (l : List Product) (i : Nat) :
    DB.findSellerByUser { db with products := l } i = db.findSellerByUser i := rfl

theorem findProduct_products (db : DB) (l : List Product) (i : Nat) :
    DB.findProduct { db with products := l } i = l.find? (fun p => p.id == i) := rfl

/-- C7: an authorized partial update (owner request on an existing
product) answers 200 and replaces the product with `applyUpdate2 p b
file`; every field absent from the request body keeps its prior value
(so does the image when no file is uploaded); re-running the identical
request on the resulting store returns the same status and store
(handler-level idempotence); and the rev-1 field update
(`applyUpdate1`, truthiness-guarded assignments) likewise keeps
unspecified fields and is idempotent. -/
theorem c7_partial_update_idempotent (db : DB) (t : Token) (now pid : Nat)
    (b : ProductBody) (file : Option String)
    (d : TokenPayload) (u : User) (s : Seller) (p : Product)
    (hv : jwtVerify t now = Except.ok d)
    (hu : db.findUser d.id = some u)
    (hr : u.role = "seller")
    (hs : db.findSellerByUser u.id = some s)
    (hp : db.findProduct pid = some p)
    (hown : p.sellerId = s.id) :
    productUpdate db (some t) now pid b file = (200, { db with products := saveProduct db.products pid (applyUpdate2 p b file) }) ∧
    (b.brand = none → (applyUpdate2 p b file).brand = p.brand) ∧
    (b.model = none → (applyUpdate2 p b file).model = p.model) ∧
    (b.productType = none → (applyUpdate2 p b file).productType = p.productType) ∧
    (b.color = none → (applyUpdate2 p b file).color = p.color) ∧
    (b.storage = none → (applyUpdate2 p b file).storage = p.storage) ∧
    (b.ram = none → (applyUpdate2 p b file).ram = p.ram) ∧
    (b.price = none → (applyUpdate2 p b file).price = p.price) ∧
    (file = none → (applyUpdate2 p b file).image = p.image) ∧
    productUpdate ((productUpdate db (some t) now pid b file).2) (some t) now pid b file = productUpdate db (some t) now pid b file ∧
    (∀ (q : Product) (b1 : ProductBody) (f1 : Option String),
      (b1.brand = none → (applyUpdate1 q b1 f1).brand = q.brand) ∧
      (b1.model = none → (applyUpdate1 q b1 f1).model = q.model) ∧
      (b1.color = none → (applyUpdate1 q b1 f1).color = q.color) ∧
      (b1.storage = none → (applyUpdate1 q b1 f1).storage = q.storage) ∧
      (b1.ram = none → (applyUpdate1 q b1 f1).ram = q.ram) ∧
      (b1.price = none → (applyUpdate1 q b1 f1).price = q.price) ∧
      (f1 = none → (applyUpdate1 q b1 f1).image = q.image) ∧
      applyUpdate1 (applyUpdate1 q b1 f1) b1 f1 = applyUpdate1 q b1 f1) := by
  have hp2 : db.products.find? (fun q => q.id == pid) = some p := hp
  have hidp : (p.id == pid) = true :=
    @List.find?_some Product (fun q => q.id == pid) p db.products hp2
  have hid2 : ((applyUpdate2 p b file).id == pid) = true := hidp
  have hrun : productUpdate db (some t) now pid b file = (200, { db with products := saveProduct db.products pid (applyUpdate2 p b file) }) := by
    simp [productUpdate, hv, hu, hr, hs, hp, hown]
  have hfind2 : DB.findProduct { db with products := saveProduct db.products pid (applyUpdate2 p b file) } pid = some (applyUpdate2 p b file) :=
    find?_saveProduct db.products pid (applyUpdate2 p b file) hid2 p hp
  have hrun2 : productUpdate { db with products := saveProduct db.products pid (applyUpdate2 p b file) } (some t) now pid b file = (200, { db with products := saveProduct db.products pid (applyUpdate2 p b file) }) := by
    simp [productUpdate, hv, findUser_products, hu, hr,
      findSellerByUser_products, hs, hfind2, applyUpdate2_sellerId, hown,
      applyUpdate2_idem p b file,
      saveProduct_idem db.products pid (applyUpdate2 p b file) hid2]
  refine ⟨hrun, ?_, ?_, ?_, ?_, ?_, ?_, ?_, ?_, ?_, ?_⟩
  · intro h; simp [applyUpdate2, h]
  · intro h; simp [applyUpdate2, h]
  · intro h; simp [applyUpdate2, h]
  · intro h; simp [applyUpdate2, h]
  · intro h; simp [applyUpdate2, h]
  · intro h; simp [applyUpdate2, h]
  · intro h; simp [applyUpdate2, h]
  · intro h; simp [applyUpdate2, h]
  · rw [hrun]
    exact hrun2
  · intro q b1 f1
    refine ⟨?_, ?_, ?_, ?_, ?_, ?_, ?_, applyUpdate1_idem q b1 f1⟩ <;>
      intro h <;> simp [applyUpdate1, truthyStr, truthyInt, h]

/-- Witness for C7: owner (user 1, seller 7) updates product 100 with a
body specifying only the brand. -/
theorem c7_partial_update_idempotent_witness :
    productUpdate
      { users := [{ id := 1, googleId := "g1", name := "A", email := "a@x"
                    picture := "p", role := "seller" }]
        sellers := [{ id := 7, userId := 1, name := "A", email := "a@x"
                      shopName := "S", shopType := "T", shopPhoto := none
                      shopLocation := none }]
        products := [{ id := 100, sellerId := 7, shopId := 7
                       shopName := some "S", shopType := some "T"
                       brand := some "old", model := some "M"
                       productType := none, color := none, price := some 3
                       image := none, storage := none, ram := none }] }
      (some (jwtSign 1 (some "seller") 0)) 0 100
      { brand := some "new", model := none, productType := none
        color := none, storage := none, ram := none, price := none } none =
    (200,
      { users := [{ id := 1, googleId := "g1", name := "A", email := "a@x"
                    picture := "p", role := "seller" }]
        sellers := [{ id := 7, userId := 1, name := "A", email := "a@x"
                      shopName := "S", shopType := "T", shopPhoto := none
                      shopLocation := none }]
        products := saveProduct
          [{ id := 100, sellerId := 7, shopId := 7
             shopName := some "S", shopType := some "T"
             brand := some "old", model := some "M"
             productType := none, color := none, price := some 3
             image := none, storage := none, ram := none }] 100
          (applyUpdate2
            { id := 100, sellerId := 7, shopId := 7
              shopName := some "S", shopType := some "T"
              brand := some "old", model := some "M"
              productType := none, color := none, price := some 3
              image := none, storage := none, ram := none }
            { brand := some "new", model := none, productType := none
              color := none, storage := none, ram := none, price := none }
            none) }) :=
  (c7_partial_update_idempotent
    { users := [{ id := 1, googleId := "g1", name := "A", email := "a@x"
                  picture := "p", role := "seller" }]
      sellers := [{ id := 7, userId := 1, name := "A", email := "a@x"
                    shopName := "S", shopType := "T", shopPhoto := none
                    shopLocation := none }]
      products := [{ id := 100, sellerId := 7, shopId := 7
                     shopName := some "S", shopType := some "T"
                     brand := some "old", model := some "M"
                     productType := none, color := none, price := some 3
                     image := none, storage := none, ram := none }] }
    (jwtSign 1 (some "seller") 0) 0 100
    { brand := some "new", model := none, productType := none
      color := none, storage := none, ram := none, price := none } none
    { id := 1, role := some "seller", exp := 86400 }
    { id := 1, googleId := "g1", name := "A", email := "a@x"
      picture := "p", role := "seller" }
    { id := 7, userId := 1, name := "A", email := "a@x"
      shopName := "S", shopType := "T", shopPhoto := none
      shopLocation := none }
    { id := 100, sellerId := 7, shopId := 7
      shopName := some "S", shopType := some "T"
      brand := some "old", model := some "M"
      productType := none, color := none, price := some 3
      image := none, storage := none, ram := none }
    rfl rfl rfl rfl rfl rfl).1
